import Mathlib

/-!
Shallow embedding of `mk2/manager.py` (class `Manager`).

Each built-in handler of the `Manager` class is embedded as a pure Lean
function from its inputs (the event fields and the relevant pieces of
`Manager` state) to the list of events it dispatches, together with the
updated state where the handler mutates state.  Effects that live outside
the file under scrutiny are abstracted as explicit parameters:
the result of the `Hook` dispatch (`events.dispatch` lives in the events
module, not in `manager.py`) is a boolean parameter, and the result of
`properties.load` is an `Option Props` parameter (`load` returns `None`
on failure).  `Manager.shutdown` is modelled as an `Action.shutdown`
marker so that the ordering of console output and shutdown is visible.
-/

namespace Mk2

/-- Model of a loaded properties snapshot (`properties.Mark2Properties`):
an association list of key/value pairs.  Its internals are irrelevant to
the claims; only identity of the loaded snapshot matters. -/
abbrev Props := List (String × String)

/-- Python `s.split("\n")` on an exploded string: structural recursion
collecting the current piece in `acc` (reversed). -/
def splitNlAux : List Char → List Char → List String
  | [], acc => [String.mk acc.reverse]
  | c :: cs, acc =>
    if c = '\n' then String.mk acc.reverse :: splitNlAux cs []
    else splitNlAux cs (c :: acc)

/-- Python `line.split("\n")`: the pieces of `line` between newline
characters; always nonempty, and a single piece when there is no
newline. -/
def splitNl (s : String) : List String := splitNlAux s.toList []

/-- Python `s.startswith(pre)`. -/
def startsWith (pre s : String) : Bool :=
  s.toList.take pre.toList.length == pre.toList

/-- The keyword arguments a `Console` event can be dispatched with in
`manager.py`: `console()` forwards arbitrary kwargs plus `line`;
`handle_server_output` passes `source`, `line`, `time`, `level`, `data`;
`handle_user_input` passes `user` and `source`.  A field that is not
supplied at the dispatch site is `none`. -/
structure ConsoleData where
  line : String := ""
  source : Option String := none
  kind : Option String := none
  user : Option String := none
  time : Option String := none
  level : Option String := none
  data : Option String := none
  deriving DecidableEq

/-- The event types of `mk2.events` that `manager.py` constructs or
handles, with the fields `manager.py` reads or writes. -/
inductive Event where
  | serverOutput (line time level data : String)
  | console (c : ConsoleData)
  | serverInput (line : String) (parse_colors : Bool)
  | fatalError (reason : Option String)
  | serverStart
  | serverStarted
  | serverStopped
  | playerJoin (username : String)
  | playerQuit (username : String)
  | playerChat (username message : String)
  | playerDeath (cause : Option String) (format : String)
      (groups : List (String × String))
  | statPlayers (players : Finset String)
  | hook (line : String)
  | userInput (user line : String)
  deriving DecidableEq

/-- A handler step: either dispatch an event on the bus, or initiate
process shutdown (`Manager.shutdown`, which delivers SIGINT). -/
inductive Action where
  | emit (e : Event)
  | shutdown
  deriving DecidableEq

/-- The mutable `Manager` state the claims touch: the `started` flag,
the `players` set and the mirrored `server.properties` snapshot. -/
structure ManagerState where
  started : Bool
  players : Finset String
  props : Option Props
  deriving DecidableEq

/-- State after `Manager.__init__`: `players = set()`, class attribute
`started = False`, no properties snapshot loaded yet. -/
def initialState : ManagerState :=
  { started := false, players := ∅, props := none }

/-- Python `"%s" % x` rendering of an optional string: `None` prints as
the literal string `"None"`. -/
def pyStr : Option String → String
  | some s => s
  | none => "None"

/-- `Manager.console(line, **k)`: splits `line` on newlines and
dispatches one `Console` event per piece, with `k['line']` set to the
piece. -/
def consoleLines (k : ConsoleData) (line : String) : List Event :=
  (splitNl line).map fun l => Event.console { k with line := l }

/-- `Manager.handle_server_output`: dispatches a single `Console` event
with `source='server'` carrying the line, time, level and data of the
`ServerOutput` event unchanged. -/
def handle_server_output (line time level data : String) : List Event :=
  [Event.console { source := some "server", line := line, time := some time,
                   level := some level, data := some data }]

/-- `Manager.handle_fatal`: formats `"fatal error: %s" % event.reason`,
sends it to the console with `kind="error"`, then calls
`self.shutdown()`. -/
def handle_fatal (reason : Option String) : List Action :=
  (consoleLines { kind := some "error" } ("fatal error: " ++ pyStr reason)).map
      Action.emit
    ++ [Action.shutdown]

/-- `Manager.handle_server_started`: reloads `server.properties`
(`loadRes` is the result of `properties.load`; `None` on failure), keeps
the old snapshot when the load is falsy, and prints `"mark2 started."`
only when `self.started` is still false, setting it to true. -/
def handle_server_started (loadRes : Option Props) (s : ManagerState) :
    ManagerState × List Event :=
  let s1 := match loadRes with
    | some p => { s with props := some p }
    | none => s
  if s1.started then (s1, [])
  else ({ s1 with started := true }, consoleLines {} "mark2 started.")

/-- `Manager.handle_user_input`: echoes the line to the console tagged
`source="user"`, then branches: a `~` line dispatches a `Hook` and, when
the dispatch result is falsy (`hookHandled = false`), prints
`"unknown command."`; a `#` line is dropped; anything else becomes
`ServerInput` with `parse_colors=True`.  `hookHandled` is the boolean
result of `self.events.dispatch(events.Hook(...))`. -/
def handle_user_input (hookHandled : Bool) (user line : String) : List Event :=
  consoleLines { user := some user, source := some "user" } line ++
    (if startsWith "~" line then
      Event.hook line ::
        (if hookHandled then [] else consoleLines {} "unknown command.")
    else if startsWith "#" line then []
    else [Event.serverInput line true])

/-- `Manager.handle_player_join`: `self.players.add(str(event.username))`
then broadcast `StatPlayers(players=list(self.players))`. -/
def handle_player_join (s : ManagerState) (username : String) :
    ManagerState × List Event :=
  let players := insert username s.players
  ({ s with players := players }, [Event.statPlayers players])

/-- `Manager.handle_player_quit`:
`self.players.discard(str(event.username))` then broadcast
`StatPlayers(players=list(self.players))`.  `discard` never raises. -/
def handle_player_quit (s : ManagerState) (username : String) :
    ManagerState × List Event :=
  let players := s.players.erase username
  ({ s with players := players }, [Event.statPlayers players])

/-- `Manager.handle_server_stopped`: `self.players.clear()` then
broadcast `StatPlayers(players=[])`. -/
def handle_server_stopped (s : ManagerState) : ManagerState × List Event :=
  ({ s with players := ∅ }, [Event.statPlayers ∅])

/-- A compiled death pattern: `re.match(pattern, data)` returning the
named capture groups on success. -/
abbrev Matcher := String → Option (List (String × String))

/-- The death classifier closure `handler` registered in
`Manager.really_start`: iterate the ordered death table; on the first
entry whose pattern matches, dispatch one `PlayerDeath` built from the
caller-supplied `cause`, the entry's `format` and the match's named
groups, then `break`; if no entry matches, dispatch nothing. -/
def deathHandler (deaths : List (String × Matcher × String))
    (cause : Option String) (data : String) : List Event :=
  match deaths with
  | [] => []
  | (_, pattern, format) :: rest =>
    match pattern data with
    | some groups => [Event.playerDeath cause format groups]
    | none => deathHandler rest cause data

/-- Python word character for the purposes of the fall pattern:
alphanumeric or underscore (ASCII fragment of Python `\w`). -/
def isWordChar (c : Char) : Bool := c.isAlphanum || c == '_'

/-- Removes `suff` from the end of `cs` when it is a suffix, else
`none`. -/
def stripSuffixOfList (cs suff : List Char) : Option (List Char) :=
  let n := cs.length - suff.length
  if suff.length ≤ cs.length ∧ cs.drop n = suff then some (cs.take n)
  else none

/-- Embedding of `re.match` for the concrete pattern
`^(?P<victim>\w+) fell from a high place$` from the spec's example table:
the line is a nonempty run of word characters followed exactly by
`" fell from a high place"` (Python `$` also tolerates one trailing
newline); the run is captured as group `victim`. -/
def fallMatcher : Matcher := fun data =>
  let cs := data.toList
  let core := match stripSuffixOfList cs ['\n'] with
    | some c => c
    | none => cs
  match stripSuffixOfList core " fell from a high place".toList with
  | some victim =>
    if victim.length > 0 && victim.all isWordChar then
      some [("victim", String.mk victim)]
    else none
  | none => none

/-- The one-entry death table of the spec's example:
`[("fall", r"^(?P<victim>\w+) fell from a high place$", "{victim} fell.")]`. -/
def fallTable : List (String × Matcher × String) :=
  [("fall", fallMatcher, "\x7bvictim\x7d fell.")]

/-- The Alice/Bob/quit-Alice trace of the spec: starting from the fresh
manager state, handle `PlayerJoin{username="Alice"}`, then
`PlayerJoin{username="Bob"}`, then `PlayerQuit{username="Alice"}`;
returns the final state and the events of the last step. -/
def joinJoinQuitTrace : ManagerState × List Event :=
  let r1 := handle_player_join initialState "Alice"
  let r2 := handle_player_join r1.1 "Bob"
  handle_player_quit r2.1 "Alice"

/-- `splitNlAux` never returns the empty list. -/
theorem splitNlAux_ne_nil (cs acc : List Char) : splitNlAux cs acc ≠ [] := by
  induction cs generalizing acc with
  | nil => simp [splitNlAux]
  | cons c cs ih =>
    simp only [splitNlAux]
    split
    · simp
    · exact ih _

/-- A Python `split("\n")` always yields at least one piece. -/
theorem splitNl_ne_nil (s : String) : splitNl s ≠ [] :=
  splitNlAux_ne_nil _ _

/-- `self.console("unknown command.")` dispatches exactly one `Console`
event with only the line set. -/
theorem unknownCmdConsole : consoleLines {} "unknown command." =
    [Event.console { line := "unknown command." }] := by decide

/-- `self.console("mark2 started.")` dispatches exactly one `Console`
event with only the line set. -/
theorem startedConsole : consoleLines {} "mark2 started." =
    [Event.console { line := "mark2 started." }] := by decide

/-- C1: the death classifier tries the ordered death table and, on the
first entry whose pattern matches the line, dispatches exactly one
`PlayerDeath` built from the named groups, the caller's `cause` and the
entry's format, ignoring the rest of the table; a non-matching head is
skipped, an exhausted table dispatches nothing, and on the spec's
one-entry fall table the line "Steve fell from a high place" yields
exactly `PlayerDeath(victim="Steve", format="{victim} fell.")` while a
non-matching line yields no event. -/
theorem C1_death_classifier_first_match :
    (∀ (name : String) (pattern : Matcher) (format : String)
        (rest : List (String × Matcher × String)) (cause : Option String)
        (data : String) (groups : List (String × String)),
      pattern data = some groups →
        deathHandler ((name, pattern, format) :: rest) cause data =
          [Event.playerDeath cause format groups]) ∧
    (∀ (name : String) (pattern : Matcher) (format : String)
        (rest : List (String × Matcher × String)) (cause : Option String)
        (data : String),
      pattern data = none →
        deathHandler ((name, pattern, format) :: rest) cause data =
          deathHandler rest cause data) ∧
    (∀ (cause : Option String) (data : String),
      deathHandler [] cause data = []) ∧
    deathHandler fallTable none "Steve fell from a high place" =
      [Event.playerDeath none "\x7bvictim\x7d fell." [("victim", "Steve")]] ∧
    deathHandler fallTable none "Steve was slain by Zombie" = [] := by
  refine ⟨?_, ?_, ?_, by decide, by decide⟩
  · intro name pattern format rest cause data groups h
    simp [deathHandler, h]
  · intro name pattern format rest cause data h
    simp [deathHandler, h]
  · intro cause data
    rfl

/-- Witness for C1 at concrete inputs: the fall pattern matches the
Steve line with group victim="Steve", and a table whose head does not
match falls through to the rest. -/
theorem C1_death_classifier_first_match_witness :
    deathHandler [("fall", fallMatcher, "\x7bvictim\x7d fell.")] none
        "Steve fell from a high place" =
      [Event.playerDeath none "\x7bvictim\x7d fell." [("victim", "Steve")]] ∧
    deathHandler [("fall", fallMatcher, "\x7bvictim\x7d fell.")] none
        "Steve was slain by Zombie" =
      deathHandler [] none "Steve was slain by Zombie" :=
  ⟨C1_death_classifier_first_match.1 "fall" fallMatcher "\x7bvictim\x7d fell."
      [] none "Steve fell from a high place" [("victim", "Steve")] (by decide),
   C1_death_classifier_first_match.2.1 "fall" fallMatcher "\x7bvictim\x7d fell."
      [] none "Steve was slain by Zombie" (by decide)⟩

/-- C2: a `UserInput` line beginning with "~" dispatches a `Hook` event
carrying the line and, when the dispatch result is not handled, emits
the console message "unknown command." and produces no `ServerInput`
event. -/
theorem C2_unknown_command (user line : String)
    (h : startsWith "~" line = true) :
    handle_user_input false user line =
      consoleLines { user := some user, source := some "user" } line ++
        (Event.hook line :: [Event.console { line := "unknown command." }]) ∧
    (∀ hookHandled : Bool,
      Event.hook line ∈ handle_user_input hookHandled user line) ∧
    Event.console { line := "unknown command." } ∈
      handle_user_input false user line ∧
    ∀ (l : String) (pc : Bool),
      Event.serverInput l pc ∉ handle_user_input false user line := by
  have heq : handle_user_input false user line =
      consoleLines { user := some user, source := some "user" } line ++
        (Event.hook line :: [Event.console { line := "unknown command." }]) := by
    simp [handle_user_input, h, unknownCmdConsole]
  refine ⟨heq, ?_, ?_, ?_⟩
  · intro hookHandled
    simp [handle_user_input, h]
  · rw [heq]; simp
  · intro l pc
    rw [heq]
    simp [consoleLines]

/-- Witness for C2 at user "alice", line "~foo". -/
theorem C2_unknown_command_witness :
    startsWith "~" "~foo" = true ∧
    Event.hook "~foo" ∈ handle_user_input false "alice" "~foo" ∧
    Event.console { line := "unknown command." } ∈
      handle_user_input false "alice" "~foo" ∧
    Event.serverInput "~foo" true ∉ handle_user_input false "alice" "~foo" :=
  ⟨by decide,
   (C2_unknown_command "alice" "~foo" (by decide)).2.1 false,
   (C2_unknown_command "alice" "~foo" (by decide)).2.2.1,
   (C2_unknown_command "alice" "~foo" (by decide)).2.2.2 "~foo" true⟩

/-- C3: `PlayerJoin` inserts the username into the players set and
broadcasts `StatPlayers` of the new set; `PlayerQuit` removes it and
broadcasts likewise; the Alice-joins, Bob-joins, Alice-quits trace from
the empty set ends with players = \x7b"Bob"\x7d and a final
`StatPlayers` carrying exactly \x7b"Bob"\x7d. -/
theorem C3_players_join_quit :
    (∀ (s : ManagerState) (u : String),
      handle_player_join s u =
        ({ s with players := insert u s.players },
         [Event.statPlayers (insert u s.players)])) ∧
    (∀ (s : ManagerState) (u : String),
      handle_player_quit s u =
        ({ s with players := s.players.erase u },
         [Event.statPlayers (s.players.erase u)])) ∧
    joinJoinQuitTrace.1.players = {"Bob"} ∧
    joinJoinQuitTrace.2 = [Event.statPlayers {"Bob"}] :=
  ⟨fun _ _ => rfl, fun _ _ => rfl, by decide, by decide⟩

/-- C4: `ServerStopped` clears the players set to empty and broadcasts a
`StatPlayers` with an empty players collection, whatever the prior
state. -/
theorem C4_server_stopped_clears (s : ManagerState) :
    handle_server_stopped s =
      ({ s with players := ∅ }, [Event.statPlayers ∅]) ∧
    (handle_server_stopped s).1.players = ∅ :=
  ⟨rfl, rfl⟩

/-- C5: the "mark2 started." message is printed only when `started` is
still false and never on a re-dispatch (after any dispatch `started` is
true), while a successful `server.properties` load replaces the mirrored
snapshot on every dispatch, re-dispatches included. -/
theorem C5_started_announce_once (loadRes : Option Props) (s : ManagerState) :
    (s.started = true → (handle_server_started loadRes s).2 = []) ∧
    (s.started = false →
      (handle_server_started loadRes s).2 =
        [Event.console { line := "mark2 started." }]) ∧
    (handle_server_started loadRes s).1.started = true ∧
    (∀ p : Props, loadRes = some p →
      (handle_server_started loadRes s).1.props = some p) := by
  obtain ⟨st, pl, pr⟩ := s
  cases loadRes <;> cases st <;>
    simp [handle_server_started, startedConsole]

/-- Witness for C5: with `started = true` and a successful load, no
message is emitted and the snapshot is still refreshed; with
`started = false` the message is emitted. -/
theorem C5_started_announce_once_witness :
    (handle_server_started (some [("motd", "hi")])
        ⟨true, ∅, none⟩).2 = [] ∧
    (handle_server_started (some [("motd", "hi")])
        ⟨true, ∅, none⟩).1.props = some [("motd", "hi")] ∧
    (handle_server_started (some [("motd", "hi")])
        ⟨false, ∅, none⟩).2 = [Event.console { line := "mark2 started." }] :=
  ⟨(C5_started_announce_once (some [("motd", "hi")]) ⟨true, ∅, none⟩).1 rfl,
   (C5_started_announce_once (some [("motd", "hi")]) ⟨true, ∅, none⟩).2.2.2
      [("motd", "hi")] rfl,
   (C5_started_announce_once (some [("motd", "hi")]) ⟨false, ∅, none⟩).2.1 rfl⟩

/-- C6: a `UserInput` line beginning with "#" (and not "~") produces
nothing beyond the echo: no `Hook`, no `ServerInput`, no
"unknown command." message; a line beginning with neither prefix becomes
a `ServerInput` with `parse_colors = true`. -/
theorem C6_comment_drop_and_forward (hookHandled : Bool)
    (user line : String) :
    (startsWith "#" line = true → startsWith "~" line = false →
      handle_user_input hookHandled user line =
        consoleLines { user := some user, source := some "user" } line ∧
      (∀ l : String, Event.hook l ∉ handle_user_input hookHandled user line) ∧
      Event.console { line := "unknown command." } ∉
        handle_user_input hookHandled user line ∧
      (∀ (l : String) (pc : Bool),
        Event.serverInput l pc ∉ handle_user_input hookHandled user line)) ∧
    (startsWith "~" line = false → startsWith "#" line = false →
      handle_user_input hookHandled user line =
        consoleLines { user := some user, source := some "user" } line ++
          [Event.serverInput line true]) := by
  constructor
  · intro h1 h2
    have heq : handle_user_input hookHandled user line =
        consoleLines { user := some user, source := some "user" } line := by
      simp [handle_user_input, h1, h2]
    refine ⟨heq, ?_, ?_, ?_⟩
    · intro l; rw [heq]; simp [consoleLines]
    · rw [heq]; simp [consoleLines]
    · intro l pc; rw [heq]; simp [consoleLines]
  · intro h1 h2
    simp [handle_user_input, h1, h2]

/-- Witness for C6 at line "#note" (comment branch) and line "say hi"
(passthrough branch), user "alice". -/
theorem C6_comment_drop_and_forward_witness :
    handle_user_input false "alice" "#note" =
      consoleLines { user := some "alice", source := some "user" } "#note" ∧
    Event.serverInput "#note" true ∉
      handle_user_input false "alice" "#note" ∧
    handle_user_input false "alice" "say hi" =
      consoleLines { user := some "alice", source := some "user" } "say hi" ++
        [Event.serverInput "say hi" true] :=
  ⟨((C6_comment_drop_and_forward false "alice" "#note").1
      (by decide) (by decide)).1,
   ((C6_comment_drop_and_forward false "alice" "#note").1
      (by decide) (by decide)).2.2.2 "#note" true,
   (C6_comment_drop_and_forward false "alice" "say hi").2
      (by decide) (by decide)⟩

/-- C7: the `FatalError` handler emits the "fatal error: <reason>"
console lines (with `kind="error"`) first, then initiates shutdown;
shutdown is always the last action, is always present, and on reason
"oops" the action list is exactly one console emit followed by
shutdown. -/
theorem C7_fatal_always_shutdown (reason : Option String) :
    (∃ pieces : List String,
      pieces = splitNl ("fatal error: " ++ pyStr reason) ∧
      pieces ≠ [] ∧
      handle_fatal reason =
        (pieces.map fun l =>
          Action.emit (Event.console { kind := some "error", line := l })) ++
          [Action.shutdown]) ∧
    (handle_fatal reason).getLast? = some Action.shutdown ∧
    Action.shutdown ∈ handle_fatal reason ∧
    handle_fatal (some "oops") =
      [Action.emit (Event.console { kind := some "error",
                                    line := "fatal error: oops" }),
       Action.shutdown] := by
  refine ⟨⟨splitNl ("fatal error: " ++ pyStr reason), rfl,
      splitNl_ne_nil _, ?_⟩, ?_, ?_, by decide⟩
  · simp [handle_fatal, consoleLines, List.map_map, Function.comp]
  · simp [handle_fatal]
  · simp [handle_fatal]

/-- C8: the `ServerOutput` handler dispatches exactly one `Console`
event tagged `source="server"` carrying the line, time, level and data
unchanged. -/
theorem C8_server_output_console (line time level data : String) :
    handle_server_output line time level data =
      [Event.console { source := some "server", line := line,
                       time := some time, level := some level,
                       data := some data }] ∧
    (handle_server_output line time level data).length = 1 :=
  ⟨rfl, rfl⟩

/-- C9: `PlayerQuit` for a username not in the players set leaves the
state unchanged (discard semantics, never an error) and still broadcasts
a `StatPlayers` carrying the unchanged set. -/
theorem C9_quit_absent_noop (s : ManagerState) (u : String)
    (h : u ∉ s.players) :
    (handle_player_quit s u).1 = s ∧
    (handle_player_quit s u).2 = [Event.statPlayers s.players] := by
  constructor
  · show ({ s with players := s.players.erase u } : ManagerState) = s
    rw [Finset.erase_eq_of_not_mem h]
  · show [Event.statPlayers (s.players.erase u)] = _
    rw [Finset.erase_eq_of_not_mem h]

/-- Witness for C9: quitting "Bob" while only "Alice" is online leaves
the set at \x7b"Alice"\x7d and broadcasts it. -/
theorem C9_quit_absent_noop_witness :
    ("Bob" ∉ ({"Alice"} : Finset String)) ∧
    (handle_player_quit ⟨false, {"Alice"}, none⟩ "Bob").2 =
      [Event.statPlayers {"Alice"}] :=
  ⟨by decide,
   (C9_quit_absent_noop ⟨false, {"Alice"}, none⟩ "Bob" (by decide)).2⟩

/-- C10: every `UserInput` line — comment lines included — is first
echoed to the console as `Console` events tagged `source="user"` with
the originating user, before any branching; the echo is never empty. -/
theorem C10_echo_first (hookHandled : Bool) (user line : String) :
    ∃ rest : List Event,
      handle_user_input hookHandled user line =
        ((splitNl line).map fun l =>
          Event.console { user := some user, source := some "user",
                          line := l }) ++ rest ∧
      ((splitNl line).map fun l =>
        Event.console { user := some user, source := some "user",
                        line := l }) ≠ [] := by
  refine ⟨_, rfl, ?_⟩
  simp [splitNl_ne_nil]

end Mk2
